import Mathlib

/-!
# Verification of the PeriodDay marking style resolver

Shallow embedding of the style-resolution logic of the `PeriodDay` calendar
day-cell component.  JavaScript optional values are modelled with `Option`,
JavaScript falsy tests (`||`, `if (x)`) with explicit truthiness helpers,
numeric style values with `ℚ`, and the mutation of style objects with
functional record updates.  React Native style arrays become `List ViewStyle`
with a last-write-wins resolution function.
-/

namespace PeriodDay

/-- Truthiness of an optional string, as JavaScript sees a `ColorValue`:
`undefined` and the empty string are falsy. -/
def strTruthy : Option String → Bool
  | none => false
  | some s => !s.isEmpty

/-- Truthiness of an optional boolean: only `some true` is truthy. -/
def optTruthy : Option Bool → Bool
  | some b => b
  | none => false

/-- JavaScript `a || b` on optional strings: `b` when `a` is falsy. -/
def orFalsy (a b : Option String) : Option String :=
  if strTruthy a then a else b

/-- JavaScript `a || d` on an optional number: the default `d` is
substituted for `undefined` and for an explicit `0` (both falsy). -/
def numOr (a : Option ℚ) (d : ℚ) : ℚ :=
  match a with
  | none => d
  | some x => if x = 0 then d else x

/-- The interactive state of a day cell (the `state` prop; `empty` models
the empty string). -/
inductive DayState where
  | empty
  | selected
  | disabled
  | inactive
  | today
  deriving DecidableEq, BEq, Repr

/-- The subset of a React Native `ViewStyle` that the component writes.
`none` models a key that is absent from the style object. -/
structure ViewStyle where
  backgroundColor : Option String := none
  borderColor : Option String := none
  borderWidth : Option ℚ := none
  borderRadius : Option ℚ := none
  borderTopWidth : Option ℚ := none
  borderBottomWidth : Option ℚ := none
  borderLeftWidth : Option ℚ := none
  borderRightWidth : Option ℚ := none
  borderTopLeftRadius : Option ℚ := none
  borderBottomLeftRadius : Option ℚ := none
  borderTopRightRadius : Option ℚ := none
  borderBottomRightRadius : Option ℚ := none
  overflowHidden : Bool := false
  paddingTop : Option ℚ := none
  deriving DecidableEq, Repr

/-- The subset of a text style the component writes. -/
structure TextStyle where
  color : Option String := none
  deriving DecidableEq, Repr

/-- The `MarkingProps` fields read by `PeriodDay`.  Fields tested with
`typeof x !== 'undefined'` or `typeof x === 'boolean'` are `Option Bool`;
fields only ever tested for truthiness are plain `Bool`. -/
structure Marking where
  disabled : Option Bool := none
  inactive : Option Bool := none
  today : Option Bool := none
  selected : Bool := false
  disableTouchEvent : Option Bool := none
  startingDay : Bool := false
  endingDay : Bool := false
  color : Option String := none
  borderColor : Option String := none
  borderWith : Option ℚ := none
  borderRadius : Option ℚ := none
  textColor : Option String := none
  customTextStyle : Option TextStyle := none
  customContainerStyle : Option ViewStyle := none
  isMultiPeriod : Bool := false
  leftSectionColor : Option String := none
  middleSectionColor : Option String := none
  rightSectionColor : Option String := none
  leftSectionBorderColor : Option String := none
  middleSectionBorderColor : Option String := none
  rightSectionBorderColor : Option String := none
  leftSectionIsSingleDay : Bool := false
  rightSectionIsSingleDay : Bool := false
  deriving DecidableEq, Repr

/-- The theme-derived style sheet produced by `styleConstructor` (external
to the excerpt): the base and today container styles and the three text
colors the resolver reads from it. -/
structure Styles where
  base : ViewStyle := {}
  today : ViewStyle := {}
  disabledTextColor : String := ""
  inactiveTextColor : String := ""
  selectedTextColor : String := ""
  deriving DecidableEq, Repr

/-- The intermediate `MarkingStyle` record computed by the `markingStyle`
memo. -/
structure MarkingStyle where
  containerStyle : ViewStyle := {}
  textStyle : TextStyle := {}
  startingDay : Option ViewStyle := none
  endingDay : Option ViewStyle := none
  day : Option ViewStyle := none
  deriving DecidableEq, Repr

/-- The record returned by the `threeSectionFillerStyles` memo. -/
structure ThreeSectionFillerStyles where
  leftFillerStyle : ViewStyle
  middleFillerStyle : ViewStyle
  rightFillerStyle : ViewStyle
  fillerStyle : ViewStyle
  deriving DecidableEq, Repr

/-- `isDisabled`: the marking field when defined, else the day state. -/
def isDisabled (marking : Option Marking) (state : DayState) : Bool :=
  match marking.bind Marking.disabled with
  | some b => b
  | none => state == DayState.disabled

/-- `isInactive`: the marking field when defined, else the day state. -/
def isInactive (marking : Option Marking) (state : DayState) : Bool :=
  match marking.bind Marking.inactive with
  | some b => b
  | none => state == DayState.inactive

/-- `isToday`: the marking field when defined, else the day state. -/
def isToday (marking : Option Marking) (state : DayState) : Bool :=
  match marking.bind Marking.today with
  | some b => b
  | none => state == DayState.today

/-- `shouldDisableTouchEvent`: an explicit `disableTouchEvent` boolean wins;
otherwise the caller-level flags apply to disabled and inactive cells in
that order; otherwise touch is not suppressed. -/
def shouldDisableTouchEvent (marking : Option Marking) (state : DayState)
    (disableAllTouchEventsForDisabledDays disableAllTouchEventsForInactiveDays : Option Bool) :
    Bool :=
  match marking.bind Marking.disableTouchEvent with
  | some b => b
  | none =>
    if disableAllTouchEventsForDisabledDays.isSome && isDisabled marking state then
      disableAllTouchEventsForDisabledDays.getD false
    else if disableAllTouchEventsForInactiveDays.isSome && isInactive marking state then
      disableAllTouchEventsForInactiveDays.getD false
    else false

/-- The `markingStyle` memo: text color chosen by the disabled, inactive,
selected chain, then overridden by `textColor` and `customTextStyle`;
period styles derived from the start and end flags with falsy-defaulted
border width and radius. -/
def markingStyle (st : Styles) (marking : Option Marking) : MarkingStyle :=
  match marking with
  | none => {}
  | some m =>
    let stateText : TextStyle :=
      if optTruthy m.disabled then { color := some st.disabledTextColor }
      else if optTruthy m.inactive then { color := some st.inactiveTextColor }
      else if m.selected then { color := some st.selectedTextColor }
      else {}
    let startStyle : Option ViewStyle :=
      if m.startingDay then
        some { backgroundColor := m.color
               borderColor := orFalsy m.borderColor m.color
               borderWidth := some (numOr m.borderWith (7/10))
               borderRadius := some (numOr m.borderRadius 9) }
      else none
    let endStyle : Option ViewStyle :=
      if m.endingDay then
        some { backgroundColor := m.color
               borderColor := orFalsy m.borderColor m.color
               borderWidth := some (numOr m.borderWith (7/10))
               borderRadius := some (numOr m.borderRadius 9) }
      else none
    let dayStyle : Option ViewStyle :=
      if !m.startingDay && !m.endingDay then
        some { backgroundColor := m.color
               borderColor := orFalsy m.borderColor m.color
               borderWidth := some (numOr m.borderWith (7/10)) }
      else none
    let textWithColor : TextStyle :=
      if strTruthy m.textColor then { color := m.textColor } else stateText
    let finalText : TextStyle :=
      match m.customTextStyle with
      | some ts => ts
      | none => textWithColor
    { containerStyle := m.customContainerStyle.getD {}
      textStyle := finalText
      startingDay := startStyle
      endingDay := endStyle
      day := dayStyle }

/-- Which border edges and corners `applyBorderToSection` should set. -/
structure Borders where
  top : Bool := false
  bottom : Bool := false
  left : Bool := false
  right : Bool := false
  topLeft : Bool := false
  bottomLeft : Bool := false
  topRight : Bool := false
  bottomRight : Bool := false
  deriving DecidableEq, Repr

/-- `applyBorderToSection`: writes background and border colors when truthy
and the selected edge widths and corner radii onto a section record. -/
def applyBorderToSection (sec : ViewStyle) (backgroundColor borderColor : Option String)
    (borderWidth borderRadius : ℚ) (borders : Borders) : ViewStyle :=
  let s := if strTruthy backgroundColor then { sec with backgroundColor := backgroundColor }
           else sec
  let s := if strTruthy borderColor then { s with borderColor := borderColor } else s
  let s := if borders.top then { s with borderTopWidth := some borderWidth } else s
  let s := if borders.bottom then { s with borderBottomWidth := some borderWidth } else s
  let s := if borders.left then { s with borderLeftWidth := some borderWidth } else s
  let s := if borders.right then { s with borderRightWidth := some borderWidth } else s
  let s := if borders.topLeft then { s with borderTopLeftRadius := some borderRadius } else s
  let s := if borders.bottomLeft then { s with borderBottomLeftRadius := some borderRadius } else s
  let s := if borders.topRight then { s with borderTopRightRadius := some borderRadius } else s
  let s := if borders.bottomRight then { s with borderBottomRightRadius := some borderRadius }
           else s
  s

/-- `applyFullyClosedBorder`: all four edges and all four corners. -/
def applyFullyClosedBorder (sec : ViewStyle) (backgroundColor borderColor : Option String)
    (borderWidth borderRadius : ℚ) : ViewStyle :=
  applyBorderToSection sec backgroundColor borderColor borderWidth borderRadius
    { top := true, bottom := true, left := true, right := true
      topLeft := true, bottomLeft := true, topRight := true, bottomRight := true }

/-- `handleTwoSectionMultiPeriod`: left and right sections, each fully
closed when its single-day flag is set, else closed toward the middle. -/
def handleTwoSectionMultiPeriod (leftFillerStyle rightFillerStyle : ViewStyle) (m : Marking)
    (borderWidth borderRadius : ℚ) : ViewStyle × ViewStyle :=
  let l :=
    if m.leftSectionIsSingleDay then
      applyFullyClosedBorder leftFillerStyle m.leftSectionColor m.leftSectionBorderColor
        borderWidth borderRadius
    else
      applyBorderToSection leftFillerStyle m.leftSectionColor m.leftSectionBorderColor
        borderWidth borderRadius
        { top := true, bottom := true, right := true, topRight := true, bottomRight := true }
  let r :=
    if m.rightSectionIsSingleDay then
      applyFullyClosedBorder rightFillerStyle m.rightSectionColor m.rightSectionBorderColor
        borderWidth borderRadius
    else
      applyBorderToSection rightFillerStyle m.rightSectionColor m.rightSectionBorderColor
        borderWidth borderRadius
        { top := true, bottom := true, left := true, topLeft := true, bottomLeft := true }
  (l, r)

/-- `handleThreeSectionMultiPeriod`: ending left section, fully closed
middle section, starting right section; single-day flags are not read. -/
def handleThreeSectionMultiPeriod
    (leftFillerStyle middleFillerStyle rightFillerStyle : ViewStyle) (m : Marking)
    (borderWidth borderRadius : ℚ) : ViewStyle × ViewStyle × ViewStyle :=
  let l :=
    applyBorderToSection leftFillerStyle m.leftSectionColor m.leftSectionBorderColor
      borderWidth borderRadius
      { top := true, bottom := true, right := true, topRight := true, bottomRight := true }
  let mid :=
    applyFullyClosedBorder middleFillerStyle m.middleSectionColor m.middleSectionBorderColor
      borderWidth borderRadius
  let r :=
    applyBorderToSection rightFillerStyle m.rightSectionColor m.rightSectionBorderColor
      borderWidth borderRadius
      { top := true, bottom := true, left := true, topLeft := true, bottomLeft := true }
  (l, mid, r)

/-- `handleFallbackMultiPeriod`: a lone section is fully closed, a left or
right section with siblings is closed toward them, a present middle section
is always fully closed. -/
def handleFallbackMultiPeriod
    (leftFillerStyle middleFillerStyle rightFillerStyle : ViewStyle) (m : Marking)
    (borderWidth borderRadius : ℚ) (hasLeft hasMiddle hasRight : Bool) :
    ViewStyle × ViewStyle × ViewStyle :=
  let l :=
    if hasLeft then
      if !hasMiddle && !hasRight then
        applyFullyClosedBorder leftFillerStyle m.leftSectionColor m.leftSectionBorderColor
          borderWidth borderRadius
      else
        applyBorderToSection leftFillerStyle m.leftSectionColor m.leftSectionBorderColor
          borderWidth borderRadius
          { top := true, bottom := true, right := true, topRight := true, bottomRight := true }
    else leftFillerStyle
  let mid :=
    if hasMiddle then
      applyFullyClosedBorder middleFillerStyle m.middleSectionColor m.middleSectionBorderColor
        borderWidth borderRadius
    else middleFillerStyle
  let r :=
    if hasRight then
      if !hasMiddle && !hasLeft then
        applyFullyClosedBorder rightFillerStyle m.rightSectionColor m.rightSectionBorderColor
          borderWidth borderRadius
      else
        applyBorderToSection rightFillerStyle m.rightSectionColor m.rightSectionBorderColor
          borderWidth borderRadius
          { top := true, bottom := true, left := true, topLeft := true, bottomLeft := true }
    else rightFillerStyle
  (l, mid, r)

/-- `handleSinglePeriod`: the original single-section logic.  Returns the
(possibly updated) left and right filler styles and the wrapper filler
style; in the start-and-end branch only the wrapper style is produced. -/
def handleSinglePeriod (leftFillerStyle rightFillerStyle fillerStyle : ViewStyle)
    (ms : MarkingStyle) (borderWidth borderRadius : ℚ) :
    ViewStyle × ViewStyle × ViewStyle :=
  match ms.startingDay, ms.endingDay with
  | some start, none =>
    (applyBorderToSection leftFillerStyle start.backgroundColor start.borderColor
       borderWidth borderRadius
       { top := true, bottom := true, left := true, topLeft := true, bottomLeft := true },
     applyBorderToSection rightFillerStyle start.backgroundColor start.borderColor
       borderWidth borderRadius { top := true, bottom := true },
     fillerStyle)
  | none, some e =>
    (applyBorderToSection leftFillerStyle e.backgroundColor e.borderColor
       borderWidth borderRadius { top := true, bottom := true },
     applyBorderToSection rightFillerStyle e.backgroundColor e.borderColor
       borderWidth borderRadius
       { top := true, bottom := true, right := true, topRight := true, bottomRight := true },
     fillerStyle)
  | some start, some e =>
    (leftFillerStyle, rightFillerStyle,
     { borderColor := orFalsy start.borderColor e.borderColor
       backgroundColor := orFalsy start.backgroundColor e.backgroundColor
       borderTopWidth := some borderWidth
       borderBottomWidth := some borderWidth
       borderLeftWidth := some borderWidth
       borderRightWidth := some borderWidth
       borderTopLeftRadius := some borderRadius
       borderBottomLeftRadius := some borderRadius
       borderTopRightRadius := some borderRadius
       borderBottomRightRadius := some borderRadius })
  | none, none =>
    match ms.day with
    | some d =>
      (leftFillerStyle, rightFillerStyle,
       { borderColor := d.borderColor
         backgroundColor := d.backgroundColor
         borderTopWidth := some borderWidth
         borderBottomWidth := some borderWidth })
    | none => (leftFillerStyle, rightFillerStyle, fillerStyle)

/-- The `threeSectionFillerStyles` memo: dispatches on multi-period mode
and the presence of the three section colors. -/
def threeSectionFillerStyles (st : Styles) (marking : Option Marking) :
    ThreeSectionFillerStyles :=
  let left0 : ViewStyle := { backgroundColor := some "transparent" }
  let middle0 : ViewStyle := { backgroundColor := some "transparent" }
  let right0 : ViewStyle := { backgroundColor := some "transparent" }
  match marking with
  | none =>
    { leftFillerStyle := left0, middleFillerStyle := middle0
      rightFillerStyle := right0, fillerStyle := {} }
  | some m =>
    let borderWidth := numOr m.borderWith (7/10)
    let borderRadius := numOr m.borderRadius 9
    if m.isMultiPeriod then
      let hasLeft := strTruthy m.leftSectionColor
      let hasMiddle := strTruthy m.middleSectionColor
      let hasRight := strTruthy m.rightSectionColor
      if hasLeft && hasRight && !hasMiddle then
        let lr := handleTwoSectionMultiPeriod left0 right0 m borderWidth borderRadius
        { leftFillerStyle := lr.1, middleFillerStyle := middle0
          rightFillerStyle := lr.2, fillerStyle := {} }
      else if hasLeft && hasMiddle && hasRight then
        let lmr := handleThreeSectionMultiPeriod left0 middle0 right0 m borderWidth borderRadius
        { leftFillerStyle := lmr.1, middleFillerStyle := lmr.2.1
          rightFillerStyle := lmr.2.2, fillerStyle := {} }
      else
        let lmr := handleFallbackMultiPeriod left0 middle0 right0 m borderWidth borderRadius
          hasLeft hasMiddle hasRight
        { leftFillerStyle := lmr.1, middleFillerStyle := lmr.2.1
          rightFillerStyle := lmr.2.2, fillerStyle := {} }
    else
      let lrf := handleSinglePeriod left0 right0 {} (markingStyle st (some m))
        borderWidth borderRadius
      { leftFillerStyle := lrf.1, middleFillerStyle := middle0
        rightFillerStyle := lrf.2.1, fillerStyle := lrf.2.2 }

/-- The background color the `containerStyle` memo pushes for the marking:
`some bg` means a `\x7bbackgroundColor: bg\x7d` entry is pushed, `none`
means no entry.  Multi-period pushes the literal transparent color; the
single-section branch prefers the end-derived style when both are set. -/
def containerMarkingBgPush (ms : MarkingStyle) (m : Marking) : Option (Option String) :=
  if m.isMultiPeriod then some (some "transparent")
  else
    match ms.startingDay, ms.endingDay with
    | some s, none => some s.backgroundColor
    | none, some e => some e.backgroundColor
    | some _, some e => some e.backgroundColor
    | none, none => none

/-- The `containerStyle` memo, as the ordered list of styles pushed. -/
def containerStyle (st : Styles) (state : DayState) (marking : Option Marking) :
    List ViewStyle :=
  let l0 := [st.base]
  let l1 := if isToday marking state then l0 ++ [st.today] else l0
  match marking with
  | none => l1
  | some m =>
    let ms := markingStyle st (some m)
    let baseContainerStyle : ViewStyle :=
      { borderRadius := some (numOr m.borderRadius 17)
        overflowHidden := true
        paddingTop := some 5 }
    let l2 := l1 ++ [baseContainerStyle]
    let l3 :=
      match containerMarkingBgPush ms m with
      | some bg => l2 ++ [{ backgroundColor := bg }]
      | none => l2
    l3 ++ [ms.containerStyle]

/-- Resolution of a style array for the background color, following React
Native style flattening: the last entry that sets the key wins. -/
def resolvedBackgroundColor (styles : List ViewStyle) : Option String :=
  styles.foldl
    (fun acc s =>
      match s.backgroundColor with
      | some c => some c
      | none => acc)
    none

/-! ## Concrete inputs used by witnesses and counterexamples -/

/-- A concrete theme style sheet. -/
def st0 : Styles :=
  { disabledTextColor := "#d9e1e8", inactiveTextColor := "#d9e1e8"
    selectedTextColor := "#ffffff" }

/-- A single-section marking with both the start and the end flag set. -/
def singleDayMarking : Marking :=
  { startingDay := true, endingDay := true, color := some "#FF0000" }

/-- A multi-period marking with only the left and middle section colors. -/
def leftMiddleMarking : Marking :=
  { isMultiPeriod := true, leftSectionColor := some "#AA0000"
    middleSectionColor := some "#00AA00" }

/-- A multi-period marking with only the left and right section colors. -/
def twoSectionMarking : Marking :=
  { isMultiPeriod := true, leftSectionColor := some "#AA0000"
    rightSectionColor := some "#00AA00" }

/-- A multi-period marking with all three section colors and both
single-day flags set. -/
def threeSectionMarking : Marking :=
  { isMultiPeriod := true, leftSectionColor := some "#AA0000"
    middleSectionColor := some "#00AA00", rightSectionColor := some "#0000AA"
    leftSectionIsSingleDay := true, rightSectionIsSingleDay := true }

/-- The marking of the spec example: a starting day colored red. -/
def exampleStartMarking : Marking :=
  { startingDay := true, color := some "#FF0000" }

/-- A multi-period marking whose custom container style sets a background
color of its own. -/
def multiPeriodCustomBg : Marking :=
  { isMultiPeriod := true, leftSectionColor := some "#AA0000"
    customContainerStyle := some { backgroundColor := some "#123456" } }

/-! ## Claim predicates -/

/-- A style fully enclosed: border width `w` on all four edges and radius
`r` on all four corners. -/
def fullyEnclosedWith (s : ViewStyle) (w r : ℚ) : Prop :=
  s.borderTopWidth = some w ∧ s.borderBottomWidth = some w ∧
  s.borderLeftWidth = some w ∧ s.borderRightWidth = some w ∧
  s.borderTopLeftRadius = some r ∧ s.borderBottomLeftRadius = some r ∧
  s.borderTopRightRadius = some r ∧ s.borderBottomRightRadius = some r

/-- Closure of the left side of a section: a nonzero left border width and
both left corner radii present. -/
def closedOnLeftSide (s : ViewStyle) : Prop :=
  (∃ w : ℚ, w ≠ 0 ∧ s.borderLeftWidth = some w) ∧
  (∃ r : ℚ, s.borderTopLeftRadius = some r ∧ s.borderBottomLeftRadius = some r)

/-- Closed only toward the right: top, bottom and right edge widths and the
right corner radii are set, the left edge width and left corner radii are
absent. -/
def closedOnRightEdgeOnly (s : ViewStyle) (w r : ℚ) : Prop :=
  s.borderTopWidth = some w ∧ s.borderBottomWidth = some w ∧
  s.borderRightWidth = some w ∧
  s.borderTopRightRadius = some r ∧ s.borderBottomRightRadius = some r ∧
  s.borderLeftWidth = none ∧
  s.borderTopLeftRadius = none ∧ s.borderBottomLeftRadius = none

/-- Closed only toward the left: mirror of `closedOnRightEdgeOnly`. -/
def closedOnLeftEdgeOnly (s : ViewStyle) (w r : ℚ) : Prop :=
  s.borderTopWidth = some w ∧ s.borderBottomWidth = some w ∧
  s.borderLeftWidth = some w ∧
  s.borderTopLeftRadius = some r ∧ s.borderBottomLeftRadius = some r ∧
  s.borderRightWidth = none ∧
  s.borderTopRightRadius = none ∧ s.borderBottomRightRadius = none

/-- The fallback multi-period behaviour as implemented: a lone section is
fully closed, a left or right section with any sibling is closed toward the
siblings, and a present middle section is always fully closed. -/
def fallbackRuleAsImplemented (st : Styles) (m : Marking) : Prop :=
  ((strTruthy m.leftSectionColor = true ∧ strTruthy m.middleSectionColor = false ∧
      strTruthy m.rightSectionColor = false) →
    fullyEnclosedWith (threeSectionFillerStyles st (some m)).leftFillerStyle
      (numOr m.borderWith (7/10)) (numOr m.borderRadius 9)) ∧
  ((strTruthy m.leftSectionColor = true ∧
      (strTruthy m.middleSectionColor = true ∨ strTruthy m.rightSectionColor = true)) →
    closedOnRightEdgeOnly (threeSectionFillerStyles st (some m)).leftFillerStyle
      (numOr m.borderWith (7/10)) (numOr m.borderRadius 9)) ∧
  (strTruthy m.middleSectionColor = true →
    fullyEnclosedWith (threeSectionFillerStyles st (some m)).middleFillerStyle
      (numOr m.borderWith (7/10)) (numOr m.borderRadius 9)) ∧
  ((strTruthy m.rightSectionColor = true ∧ strTruthy m.middleSectionColor = false ∧
      strTruthy m.leftSectionColor = false) →
    fullyEnclosedWith (threeSectionFillerStyles st (some m)).rightFillerStyle
      (numOr m.borderWith (7/10)) (numOr m.borderRadius 9)) ∧
  ((strTruthy m.rightSectionColor = true ∧
      (strTruthy m.middleSectionColor = true ∨ strTruthy m.leftSectionColor = true)) →
    closedOnLeftEdgeOnly (threeSectionFillerStyles st (some m)).rightFillerStyle
      (numOr m.borderWith (7/10)) (numOr m.borderRadius 9))

/-- Start-derived values win over end-derived values in the single-day
wrapper filler, and the container push uses the end-derived background. -/
def singleDayPrecedence (st : Styles) (m : Marking) : Prop :=
  ∃ sd ed : ViewStyle,
    (markingStyle st (some m)).startingDay = some sd ∧
    (markingStyle st (some m)).endingDay = some ed ∧
    (threeSectionFillerStyles st (some m)).fillerStyle.backgroundColor =
      (if strTruthy sd.backgroundColor then sd.backgroundColor else ed.backgroundColor) ∧
    (threeSectionFillerStyles st (some m)).fillerStyle.borderColor =
      (if strTruthy sd.borderColor then sd.borderColor else ed.borderColor) ∧
    containerMarkingBgPush (markingStyle st (some m)) m = some ed.backgroundColor

/-- The two-section multi-period layout: left section closed only toward
the right, right section closed only toward the left, middle filler left at
its transparent initial value. -/
def twoSectionLayout (st : Styles) (m : Marking) : Prop :=
  closedOnRightEdgeOnly (threeSectionFillerStyles st (some m)).leftFillerStyle
    (numOr m.borderWith (7/10)) (numOr m.borderRadius 9) ∧
  closedOnLeftEdgeOnly (threeSectionFillerStyles st (some m)).rightFillerStyle
    (numOr m.borderWith (7/10)) (numOr m.borderRadius 9) ∧
  (threeSectionFillerStyles st (some m)).middleFillerStyle =
    { backgroundColor := some "transparent" }

/-- The three-section multi-period layout: left closed only toward the
right, middle fully closed, right closed only toward the left. -/
def threeSectionLayout (st : Styles) (m : Marking) : Prop :=
  closedOnRightEdgeOnly (threeSectionFillerStyles st (some m)).leftFillerStyle
    (numOr m.borderWith (7/10)) (numOr m.borderRadius 9) ∧
  fullyEnclosedWith (threeSectionFillerStyles st (some m)).middleFillerStyle
    (numOr m.borderWith (7/10)) (numOr m.borderRadius 9) ∧
  closedOnLeftEdgeOnly (threeSectionFillerStyles st (some m)).rightFillerStyle
    (numOr m.borderWith (7/10)) (numOr m.borderRadius 9)

/-- The single-day enclosure as implemented: the resolved border width is
nonzero, the wrapper filler style is fully enclosed with it, and the left
and right filler styles are left at their transparent initial values. -/
def singleDayEnclosure (st : Styles) (m : Marking) : Prop :=
  numOr m.borderWith (7/10) ≠ 0 ∧
  fullyEnclosedWith (threeSectionFillerStyles st (some m)).fillerStyle
    (numOr m.borderWith (7/10)) (numOr m.borderRadius 9) ∧
  (threeSectionFillerStyles st (some m)).leftFillerStyle =
    { backgroundColor := some "transparent" } ∧
  (threeSectionFillerStyles st (some m)).rightFillerStyle =
    { backgroundColor := some "transparent" }

/-- The result of substituting JavaScript falsy defaults is never zero. -/
theorem numOr_ne_zero (a : Option ℚ) (d : ℚ) (hd : d ≠ 0) : numOr a d ≠ 0 := by
  cases a with
  | none => simpa [numOr]
  | some x =>
    by_cases hx : x = 0 <;> simp [numOr, hx, hd]

/-! ## Claims -/

/-- Claim C1, counterexample: for a single-section marking with both the
start and the end flag set, the left and right filler styles are NOT fully
enclosed — they receive no border at all; the enclosure is carried by the
wrapper filler style instead. -/
theorem singleDay_side_fillers_not_enclosed :
    singleDayMarking.isMultiPeriod = false ∧ singleDayMarking.startingDay = true ∧
    singleDayMarking.endingDay = true ∧
    ¬ ∃ w r : ℚ, w ≠ 0 ∧
      fullyEnclosedWith
        (threeSectionFillerStyles st0 (some singleDayMarking)).leftFillerStyle w r ∧
      fullyEnclosedWith
        (threeSectionFillerStyles st0 (some singleDayMarking)).rightFillerStyle w r := by
  refine ⟨rfl, rfl, rfl, ?_⟩
  rintro ⟨w, r, -, hL, -⟩
  have h := hL.1
  rw [show (threeSectionFillerStyles st0 (some singleDayMarking)).leftFillerStyle.borderTopWidth
        = none from rfl] at h
  exact Option.noConfusion h

/-- Claim C1, amended: for every single-section marking with both flags
set, the fully enclosed shape (all four edges at the same nonzero resolved
border width, all four corners at the full resolved radius) is the wrapper
filler style returned by the resolver, while the left and right filler
styles stay at their transparent initial values. -/
theorem singleDay_enclosure_on_fillerStyle (st : Styles) (m : Marking)
    (hmp : m.isMultiPeriod = false) (hs : m.startingDay = true) (he : m.endingDay = true) :
    singleDayEnclosure st m := by
  refine ⟨numOr_ne_zero _ _ (by norm_num), ?_, ?_, ?_⟩ <;>
    simp [singleDayEnclosure, fullyEnclosedWith, threeSectionFillerStyles, markingStyle,
      handleSinglePeriod, hmp, hs, he]

/-- Witness for the amended claim C1 at the concrete single-day marking. -/
theorem singleDay_enclosure_on_fillerStyle_witness :
    singleDayMarking.isMultiPeriod = false ∧ singleDayMarking.startingDay = true ∧
    singleDayMarking.endingDay = true ∧ singleDayEnclosure st0 singleDayMarking :=
  ⟨rfl, rfl, rfl, singleDay_enclosure_on_fillerStyle st0 singleDayMarking rfl rfl rfl⟩

/-- Claim C2, counterexample: for the fallback combination left+middle the
left section has no sibling on its left, so the claimed rule would close
its left side; the code instead leaves the left edge fully open (it closes
the section toward its sibling). -/
theorem fallback_leftMiddle_not_closed_on_left :
    leftMiddleMarking.isMultiPeriod = true ∧
    strTruthy leftMiddleMarking.leftSectionColor = true ∧
    strTruthy leftMiddleMarking.middleSectionColor = true ∧
    strTruthy leftMiddleMarking.rightSectionColor = false ∧
    ¬ closedOnLeftSide
        (threeSectionFillerStyles st0 (some leftMiddleMarking)).leftFillerStyle := by
  refine ⟨rfl, rfl, rfl, rfl, ?_⟩
  rintro ⟨⟨w, -, hw⟩, -⟩
  rw [show (threeSectionFillerStyles st0 (some leftMiddleMarking)).leftFillerStyle.borderLeftWidth
        = none from rfl] at hw
  exact Option.noConfusion hw

/-- Claim C2, amended: in the fallback multi-period cases a lone section is
fully closed on all four sides, a present middle section is always fully
closed, and a left or right section that has a sibling is closed only
toward the siblings (right edge for the left section, left edge for the
right section), the outer edge staying open. -/
theorem fallbackMultiPeriod_rule (st : Styles) (m : Marking)
    (hmp : m.isMultiPeriod = true)
    (hno2 : ¬(strTruthy m.leftSectionColor = true ∧ strTruthy m.rightSectionColor = true ∧
              strTruthy m.middleSectionColor = false))
    (hno3 : ¬(strTruthy m.leftSectionColor = true ∧ strTruthy m.middleSectionColor = true ∧
              strTruthy m.rightSectionColor = true)) :
    fallbackRuleAsImplemented st m := by
  cases hL : strTruthy m.leftSectionColor <;> cases hM : strTruthy m.middleSectionColor <;>
    cases hR : strTruthy m.rightSectionColor <;>
    simp_all [fallbackRuleAsImplemented, threeSectionFillerStyles, handleFallbackMultiPeriod,
      applyFullyClosedBorder, applyBorderToSection, fullyEnclosedWith, closedOnRightEdgeOnly,
      closedOnLeftEdgeOnly] <;>
    split_ifs <;> simp

/-- Witness for the amended claim C2 at the left+middle marking. -/
theorem fallbackMultiPeriod_rule_witness :
    leftMiddleMarking.isMultiPeriod = true ∧
    fallbackRuleAsImplemented st0 leftMiddleMarking :=
  ⟨rfl, fallbackMultiPeriod_rule st0 leftMiddleMarking rfl (by decide) (by decide)⟩

/-- Claim C3: in the single-section both-flags branch the wrapper filler
takes background and border color from the start-derived style, falling
back to the end-derived style only when the start-derived value is falsy,
while the container pushes the end-derived background color. -/
theorem singleDay_color_precedence (st : Styles) (m : Marking)
    (hmp : m.isMultiPeriod = false) (hs : m.startingDay = true) (he : m.endingDay = true) :
    singleDayPrecedence st m := by
  refine ⟨{ backgroundColor := m.color, borderColor := orFalsy m.borderColor m.color
            borderWidth := some (numOr m.borderWith (7/10))
            borderRadius := some (numOr m.borderRadius 9) },
          { backgroundColor := m.color, borderColor := orFalsy m.borderColor m.color
            borderWidth := some (numOr m.borderWith (7/10))
            borderRadius := some (numOr m.borderRadius 9) },
          ?_, ?_, ?_, ?_, ?_⟩ <;>
    simp [markingStyle, threeSectionFillerStyles, handleSinglePeriod, containerMarkingBgPush,
      orFalsy, hmp, hs, he]

/-- Witness for claim C3 at the concrete single-day marking. -/
theorem singleDay_color_precedence_witness :
    singleDayMarking.isMultiPeriod = false ∧ singleDayMarking.startingDay = true ∧
    singleDayMarking.endingDay = true ∧ singleDayPrecedence st0 singleDayMarking :=
  ⟨rfl, rfl, rfl, singleDay_color_precedence st0 singleDayMarking rfl rfl rfl⟩

/-- Claim C4: two-section multi-period with both single-day flags false:
the left filler closes only toward the right, the right filler only toward
the left, and the middle filler stays transparent and unstyled. -/
theorem twoSectionMultiPeriod_edges (st : Styles) (m : Marking)
    (hmp : m.isMultiPeriod = true)
    (hL : strTruthy m.leftSectionColor = true)
    (hR : strTruthy m.rightSectionColor = true)
    (hM : strTruthy m.middleSectionColor = false)
    (hLS : m.leftSectionIsSingleDay = false)
    (hRS : m.rightSectionIsSingleDay = false) :
    twoSectionLayout st m := by
  refine ⟨?_, ?_, ?_⟩ <;>
    simp [twoSectionLayout, threeSectionFillerStyles, handleTwoSectionMultiPeriod,
      applyBorderToSection, closedOnRightEdgeOnly, closedOnLeftEdgeOnly,
      hmp, hL, hR, hM, hLS, hRS] <;>
    split_ifs <;> simp

/-- Witness for claim C4 at the concrete two-section marking. -/
theorem twoSectionMultiPeriod_edges_witness :
    twoSectionMarking.isMultiPeriod = true ∧
    twoSectionMarking.leftSectionIsSingleDay = false ∧
    twoSectionMarking.rightSectionIsSingleDay = false ∧
    twoSectionLayout st0 twoSectionMarking :=
  ⟨rfl, rfl, rfl,
   twoSectionMultiPeriod_edges st0 twoSectionMarking rfl rfl rfl rfl rfl rfl⟩

/-- Claim C5: three-section multi-period: left filler closed only toward
the right, middle fully closed, right filler closed only toward the left,
whatever the values of the two single-day flags. -/
theorem threeSectionMultiPeriod_edges (st : Styles) (m : Marking)
    (hmp : m.isMultiPeriod = true)
    (hL : strTruthy m.leftSectionColor = true)
    (hM : strTruthy m.middleSectionColor = true)
    (hR : strTruthy m.rightSectionColor = true) :
    threeSectionLayout st m := by
  refine ⟨?_, ?_, ?_⟩ <;>
    simp [threeSectionLayout, threeSectionFillerStyles, handleThreeSectionMultiPeriod,
      applyFullyClosedBorder, applyBorderToSection, closedOnRightEdgeOnly,
      closedOnLeftEdgeOnly, fullyEnclosedWith, hmp, hL, hM, hR] <;>
    split_ifs <;> simp

/-- Witness for claim C5 at a three-section marking with both single-day
flags set, showing the flags are ignored. -/
theorem threeSectionMultiPeriod_edges_witness :
    threeSectionMarking.isMultiPeriod = true ∧
    threeSectionMarking.leftSectionIsSingleDay = true ∧
    threeSectionMarking.rightSectionIsSingleDay = true ∧
    threeSectionLayout st0 threeSectionMarking :=
  ⟨rfl, rfl, rfl, threeSectionMultiPeriod_edges st0 threeSectionMarking rfl rfl rfl rfl⟩

/-- Claim C6: the spec example — an empty state with a red starting-day
marking yields a left filler with red background, left border width 0.7 and
left corner radii 9, a right filler with red background, top and bottom
border widths 0.7 and no corner radius, and a red resolved container
background. -/
theorem exampleStart_resolution :
    (threeSectionFillerStyles st0 (some exampleStartMarking)).leftFillerStyle.backgroundColor
      = some "#FF0000" ∧
    (threeSectionFillerStyles st0 (some exampleStartMarking)).leftFillerStyle.borderLeftWidth
      = some (7/10) ∧
    (threeSectionFillerStyles st0 (some exampleStartMarking)).leftFillerStyle.borderTopLeftRadius
      = some 9 ∧
    (threeSectionFillerStyles st0 (some exampleStartMarking)).leftFillerStyle.borderBottomLeftRadius
      = some 9 ∧
    (threeSectionFillerStyles st0 (some exampleStartMarking)).rightFillerStyle.backgroundColor
      = some "#FF0000" ∧
    (threeSectionFillerStyles st0 (some exampleStartMarking)).rightFillerStyle.borderTopWidth
      = some (7/10) ∧
    (threeSectionFillerStyles st0 (some exampleStartMarking)).rightFillerStyle.borderBottomWidth
      = some (7/10) ∧
    (threeSectionFillerStyles st0 (some exampleStartMarking)).rightFillerStyle.borderTopLeftRadius
      = none ∧
    (threeSectionFillerStyles st0 (some exampleStartMarking)).rightFillerStyle.borderBottomLeftRadius
      = none ∧
    (threeSectionFillerStyles st0 (some exampleStartMarking)).rightFillerStyle.borderTopRightRadius
      = none ∧
    (threeSectionFillerStyles st0 (some exampleStartMarking)).rightFillerStyle.borderBottomRightRadius
      = none ∧
    resolvedBackgroundColor (containerStyle st0 DayState.empty (some exampleStartMarking))
      = some "#FF0000" :=
  ⟨rfl, rfl, rfl, rfl, rfl, rfl, rfl, rfl, rfl, rfl, rfl, rfl⟩

/-- Claim C7: touch gating precedence — an explicit `disableTouchEvent`
boolean alone decides; otherwise the disabled-days flag decides for a
disabled cell; otherwise the inactive-days flag decides for an inactive
cell; otherwise the cell is interactive. -/
theorem shouldDisableTouchEvent_precedence (marking : Option Marking) (state : DayState)
    (dForDisabled dForInactive : Option Bool) :
    shouldDisableTouchEvent marking state dForDisabled dForInactive =
      match marking.bind Marking.disableTouchEvent with
      | some b => b
      | none =>
        if isDisabled marking state && dForDisabled.isSome then dForDisabled.getD false
        else if isInactive marking state && dForInactive.isSome then dForInactive.getD false
        else false := by
  unfold shouldDisableTouchEvent
  cases marking.bind Marking.disableTouchEvent <;>
    cases dForDisabled <;> cases dForInactive <;>
    cases hd : isDisabled marking state <;> cases hi : isInactive marking state <;> simp

/-- Claim C8: marking-derived text style — the state chain disabled, then
inactive, then selected picks a color first; a present `textColor`
overrides it and a present `customTextStyle` overrides in turn. -/
theorem markingStyle_textColor_priority (st : Styles) (m : Marking) :
    (markingStyle st (some m)).textStyle =
      match m.customTextStyle with
      | some ts => ts
      | none =>
        if strTruthy m.textColor then { color := m.textColor }
        else if optTruthy m.disabled then { color := some st.disabledTextColor }
        else if optTruthy m.inactive then { color := some st.inactiveTextColor }
        else if m.selected then { color := some st.selectedTextColor }
        else {} := by
  unfold markingStyle
  cases hc : m.customTextStyle <;> cases ht : strTruthy m.textColor <;>
    cases hd : optTruthy m.disabled <;> cases hi : optTruthy m.inactive <;>
    cases hs : m.selected <;> simp [hc, ht, hd, hi, hs]

/-- Claim C9, counterexample: a multi-period marking whose custom container
style carries its own background color resolves to that color, not to the
transparent background. -/
theorem multiPeriod_container_custom_override :
    multiPeriodCustomBg.isMultiPeriod = true ∧
    resolvedBackgroundColor (containerStyle st0 DayState.empty (some multiPeriodCustomBg)) ≠
      some "transparent" := by
  refine ⟨rfl, ?_⟩
  rw [show resolvedBackgroundColor
        (containerStyle st0 DayState.empty (some multiPeriodCustomBg)) = some "#123456" from rfl]
  decide

/-- Claim C9, amended: for every multi-period marking whose custom
container style does not set a background color, the resolved container
background is the transparent color pushed by the resolver. -/
theorem multiPeriod_container_transparent (st : Styles) (state : DayState) (m : Marking)
    (hmp : m.isMultiPeriod = true)
    (hcc : (m.customContainerStyle.getD {}).backgroundColor = none) :
    resolvedBackgroundColor (containerStyle st state (some m)) = some "transparent" := by
  cases ht : isToday (some m) state <;>
    simp [containerStyle, containerMarkingBgPush, markingStyle, resolvedBackgroundColor,
      ht, hmp, hcc]

/-- Witness for the amended claim C9 at the left+middle marking, which has
no custom container style. -/
theorem multiPeriod_container_transparent_witness :
    leftMiddleMarking.isMultiPeriod = true ∧
    (leftMiddleMarking.customContainerStyle.getD {}).backgroundColor = none ∧
    resolvedBackgroundColor (containerStyle st0 DayState.empty (some leftMiddleMarking)) =
      some "transparent" :=
  ⟨rfl, rfl, multiPeriod_container_transparent st0 DayState.empty leftMiddleMarking rfl rfl⟩

/-- Claim C10: an explicit zero border width or radius is indistinguishable
from an absent one — the falsy-default substitution maps both to 0.7, 9 and
17 — so every resolver output coincides on the two markings and a zero
width or radius cannot be requested. -/
theorem zero_width_radius_indistinguishable (st : Styles) (state : DayState) (m : Marking) :
    numOr (some 0) (7/10) = (7/10 : ℚ) ∧ numOr (some 0) 9 = (9 : ℚ) ∧
    numOr (some 0) 17 = (17 : ℚ) ∧
    markingStyle st (some { m with borderWith := some 0, borderRadius := some 0 }) =
      markingStyle st (some { m with borderWith := none, borderRadius := none }) ∧
    threeSectionFillerStyles st (some { m with borderWith := some 0, borderRadius := some 0 }) =
      threeSectionFillerStyles st (some { m with borderWith := none, borderRadius := none }) ∧
    containerStyle st state (some { m with borderWith := some 0, borderRadius := some 0 }) =
      containerStyle st state (some { m with borderWith := none, borderRadius := none }) :=
  ⟨rfl, rfl, rfl, rfl, rfl, rfl⟩

end PeriodDay
